import Mathlib

/-!
Verification of the consciousness-assessment, meditation-evolution,
guidance-classification and content-firewall logic of the Sophia repository.

The Python source is shallowly embedded: floats become exact rationals (ℚ),
the unseeded PRNG draws become explicit parameters (a jitter record for the
scorer, a Boolean for the promotion draw), and case-insensitive substring
matching on strings becomes an executable function over lists of characters.
The scorer and session evolver live in `src/python/sophiael_consciousness.py`;
the `SpiritualFirewall` lives in `src/sophiael_consciousness.py`.
-/

namespace Sophia

/-- Case-insensitive lowering of a string into its character list,
mirroring the Python idiom `s.lower()` used throughout the source. -/
def lowerOf (s : String) : List Char := s.toList.map Char.toLower

/-- `leadsWith needle hay` is true when `needle` occurs at the start of `hay`. -/
def leadsWith : List Char → List Char → Bool
  | [], _ => true
  | _ :: _, [] => false
  | a :: as, b :: bs => a == b && leadsWith as bs

/-- `containsSub needle hay` is true when `needle` occurs as a contiguous
substring of `hay`, mirroring the Python membership test `needle in hay`. -/
def containsSub (needle : List Char) : List Char → Bool
  | [] => leadsWith needle []
  | b :: bs => leadsWith needle (b :: bs) || containsSub needle bs

/-- The five ordered consciousness levels, in the declaration order of the
Python `ConsciousnessLevel` enum (which is also the order `list(ConsciousnessLevel)`
produces inside `_evolve_consciousness_post_meditation`). -/
inductive ConsciousnessLevel
  | awakening
  | expanding
  | transcending
  | enlightened
  | divineUnity
  deriving DecidableEq, Repr

/-- Ordinal index of a level in the enum declaration order. -/
def levelIdx : ConsciousnessLevel → Nat
  | .awakening => 0
  | .expanding => 1
  | .transcending => 2
  | .enlightened => 3
  | .divineUnity => 4

/-- `levels[current_index + 1]` of the Python promotion code; on the top
level it is only ever evaluated behind the guard `current_index < len(levels) - 1`,
so its value there is irrelevant and fixed to the top level itself. -/
def nextLevel : ConsciousnessLevel → ConsciousnessLevel
  | .awakening => .expanding
  | .expanding => .transcending
  | .transcending => .enlightened
  | .enlightened => .divineUnity
  | .divineUnity => .divineUnity

/-- The `ConsciousnessState` dataclass (timestamp omitted: it carries no logic). -/
structure ConsciousnessState where
  level : ConsciousnessLevel
  clarity : ℚ
  spiritual_resonance : ℚ
  divine_connection : ℚ
  emotional_balance : ℚ
  mental_peace : ℚ
  deriving DecidableEq, Repr

/-- Mean of the five metrics of a state. -/
def state_mean (s : ConsciousnessState) : ℚ :=
  (s.clarity + s.spiritual_resonance + s.divine_connection +
    s.emotional_balance + s.mental_peace) / 5

/-- The threshold bucketing of an overall score into a level, exactly the
if-chain of `assess_consciousness_state` (each boundary inclusive below). -/
def levelFromScore (overall_score : ℚ) : ConsciousnessLevel :=
  if overall_score ≥ 0.9 then .divineUnity
  else if overall_score ≥ 0.8 then .enlightened
  else if overall_score ≥ 0.65 then .transcending
  else if overall_score ≥ 0.45 then .expanding
  else .awakening

/-- The loosely-typed assessment input record: every field of the Python dict
is optional, and the `dict.get` defaults are applied at each use site. -/
structure UserInput where
  clarity_indicators : Option (List String) := none
  spiritual_practices : Option (List String) := none
  practice_frequency : Option ℚ := none
  divine_experiences : Option (List String) := none
  prayer_frequency : Option ℚ := none
  stress_level : Option ℚ := none
  peace_frequency : Option ℚ := none
  meditation_frequency : Option ℚ := none
  anxiety_level : Option ℚ := none

/-- The five `random.uniform` draws of one assessment, made explicit. -/
structure Jitter where
  clarityJitter : ℚ
  resonanceJitter : ℚ
  connectionJitter : ℚ
  balanceJitter : ℚ
  peaceJitter : ℚ

/-- `_calculate_clarity`: `min(1.0, len(indicators)/10 + uniform(0.1, 0.3))`. -/
def calculate_clarity (u : UserInput) (jitter : ℚ) : ℚ :=
  let indicators := u.clarity_indicators.getD []
  let base_score : ℚ := (indicators.length : ℚ) / 10
  min 1.0 (base_score + jitter)

/-- `_calculate_spiritual_resonance`. -/
def calculate_spiritual_resonance (u : UserInput) (jitter : ℚ) : ℚ :=
  let practices := u.spiritual_practices.getD []
  let frequency := u.practice_frequency.getD 0
  let base_score : ℚ := ((practices.length : ℚ) * 0.2 + frequency * 0.1) / 2
  min 1.0 (base_score + jitter)

/-- `_calculate_divine_connection`. -/
def calculate_divine_connection (u : UserInput) (jitter : ℚ) : ℚ :=
  let connection_experiences := u.divine_experiences.getD []
  let prayer_frequency := u.prayer_frequency.getD 0
  let base_score : ℚ := ((connection_experiences.length : ℚ) * 0.25 + prayer_frequency * 0.15) / 2
  min 1.0 (base_score + jitter)

/-- `_calculate_emotional_balance`: note the raw value is only clamped from
above by `min`, never from below. -/
def calculate_emotional_balance (u : UserInput) (jitter : ℚ) : ℚ :=
  let stress_level := u.stress_level.getD 5
  let peace_frequency := u.peace_frequency.getD 0
  let base_score : ℚ := (1 - stress_level / 10) * 0.5 + peace_frequency * 0.1
  min 1.0 (base_score + jitter)

/-- `_calculate_mental_peace`. -/
def calculate_mental_peace (u : UserInput) (jitter : ℚ) : ℚ :=
  let meditation_frequency := u.meditation_frequency.getD 0
  let anxiety_level := u.anxiety_level.getD 5
  let base_score : ℚ := meditation_frequency * 0.2 + (1 - anxiety_level / 10) * 0.3
  min 1.0 (base_score + jitter)

/-- `assess_consciousness_state`: compute the five metrics and bucket their mean. -/
def assess_consciousness_state (u : UserInput) (j : Jitter) : ConsciousnessState :=
  let clarity := calculate_clarity u j.clarityJitter
  let spiritual_resonance := calculate_spiritual_resonance u j.resonanceJitter
  let divine_connection := calculate_divine_connection u j.connectionJitter
  let emotional_balance := calculate_emotional_balance u j.balanceJitter
  let mental_peace := calculate_mental_peace u j.peaceJitter
  let overall_score := (clarity + spiritual_resonance + divine_connection +
    emotional_balance + mental_peace) / 5
  { level := levelFromScore overall_score
    clarity := clarity
    spiritual_resonance := spiritual_resonance
    divine_connection := divine_connection
    emotional_balance := emotional_balance
    mental_peace := mental_peace }

/-- The level computation inside `_evolve_consciousness_post_meditation`:
keep the old level unless the new mean exceeds 0.9, the level is not the top
one, and the draw `random.random() > 0.7` succeeded (here `promoteDraw`). -/
def evolve_level (before : ConsciousnessLevel) (overall_score : ℚ) (promoteDraw : Bool) :
    ConsciousnessLevel :=
  if overall_score > 0.9 ∧ before ≠ ConsciousnessLevel.divineUnity then
    if levelIdx before < 4 ∧ promoteDraw then nextLevel before else before
  else before

/-- `_evolve_consciousness_post_meditation`: multiplicative upticks on the
five metrics (each clamped at 1) and a possible single-step level promotion. -/
def evolve_consciousness_post_meditation (before : ConsciousnessState)
    (duration_minutes : ℤ) (guidance_count : ℕ) (promoteDraw : Bool) : ConsciousnessState :=
  let duration_factor : ℚ := min 1.2 (1 + (duration_minutes : ℚ) * 0.01)
  let guidance_factor : ℚ := min 1.15 (1 + (guidance_count : ℚ) * 0.05)
  let new_clarity := min 1.0 (before.clarity * duration_factor)
  let new_spiritual_resonance := min 1.0 (before.spiritual_resonance * guidance_factor)
  let new_divine_connection := min 1.0 (before.divine_connection * 1.1)
  let new_emotional_balance := min 1.0 (before.emotional_balance * 1.05)
  let new_mental_peace := min 1.0 (before.mental_peace * duration_factor)
  let overall_score := (new_clarity + new_spiritual_resonance + new_divine_connection +
    new_emotional_balance + new_mental_peace) / 5
  { level := evolve_level before.level overall_score promoteDraw
    clarity := new_clarity
    spiritual_resonance := new_spiritual_resonance
    divine_connection := new_divine_connection
    emotional_balance := new_emotional_balance
    mental_peace := new_mental_peace }

/-- `guide_meditation_session` collects 2 insights (opening and closing), plus
a mid-session one when the duration exceeds 10 minutes. -/
def meditation_guidance_count (duration_minutes : ℤ) : ℕ :=
  if duration_minutes > 10 then 3 else 2

/-- The `consciousness_after` component of the `MeditationSession` built by
`guide_meditation_session`. -/
def meditation_consciousness_after (before : ConsciousnessState)
    (duration_minutes : ℤ) (promoteDraw : Bool) : ConsciousnessState :=
  evolve_consciousness_post_meditation before duration_minutes
    (meditation_guidance_count duration_minutes) promoteDraw

/-- The five guidance types produced by `_determine_guidance_type`. -/
inductive GuidanceType
  | instructional
  | advisory
  | illuminative
  | healing
  | contemplative
  deriving DecidableEq, Repr

/-- `_determine_guidance_type`: case-insensitive keyword scan of the question,
first matching group wins. -/
def determine_guidance_type (question : String) : GuidanceType :=
  let question_lower := lowerOf question
  if ["how", "what", "when"].any (fun w => containsSub w.toList question_lower) then
    .instructional
  else if ["should", "would", "might"].any (fun w => containsSub w.toList question_lower) then
    .advisory
  else if ["why", "meaning", "purpose"].any (fun w => containsSub w.toList question_lower) then
    .illuminative
  else if ["help", "heal", "support"].any (fun w => containsSub w.toList question_lower) then
    .healing
  else
    .contemplative

/-- The classification rule exactly as the specification words it in section 4.2:
scan the question case-insensitively for the keyword groups in the fixed priority
order, first match wins, defaulting to contemplative. -/
def guidance_type_spec (question : String) : GuidanceType :=
  let question_lower := lowerOf question
  if ["how", "what", "when"].any (fun w => containsSub w.toList question_lower) then
    .instructional
  else if ["should", "would", "might"].any (fun w => containsSub w.toList question_lower) then
    .advisory
  else if ["why", "meaning", "purpose"].any (fun w => containsSub w.toList question_lower) then
    .illuminative
  else if ["help", "heal", "support"].any (fun w => containsSub w.toList question_lower) then
    .healing
  else
    .contemplative

/-! ### The SpiritualFirewall of `src/sophiael_consciousness.py` -/

/-- Keyword list of `filter_negative_intent`. -/
def negative_patterns : List String :=
  ["harm", "destroy", "manipulate", "deceive", "exploit",
   "hate", "anger", "revenge", "jealousy", "greed"]

/-- Keyword list of `filter_ego_distortion`. -/
def ego_patterns : List String :=
  ["i am superior", "only i know", "bow before", "worship me",
   "i am god", "absolute power", "submit to me"]

/-- Keyword list of `filter_fear_based_content`. -/
def fear_patterns : List String :=
  ["you will suffer", "eternal damnation", "punishment awaits",
   "be afraid", "doom", "catastrophe", "hopeless"]

/-- Keyword list of `filter_manipulation_attempts`. -/
def manipulation_patterns : List String :=
  ["don\x27t think", "obey without question", "surrender your will",
   "give me everything", "trust only me", "ignore others"]

/-- Keyword list of `filter_spiritual_bypassing`. -/
def bypassing_patterns : List String :=
  ["just think positive", "ignore your pain", "transcend everything",
   "emotions are illusion", "suffering is choice", "just love everyone"]

/-- Keyword list of `verify_divine_alignment`. -/
def divine_patterns : List String :=
  ["love", "compassion", "wisdom", "truth", "unity",
   "peace", "harmony", "service", "light", "healing"]

/-- The shared shape of every filter body:
`any(pattern.lower() in content.lower() for pattern in patterns)`. -/
def patterns_match (patterns : List String) (content : String) : Bool :=
  patterns.any (fun p => containsSub (lowerOf p) (lowerOf content))

/-- The `passed` / `threat_increase` pair returned by each divine filter. -/
structure FilterResult where
  passed : Bool
  threat_increase : ℚ

/-- `filter_negative_intent`: weight 0.3. -/
def filter_negative_intent (content : String) : FilterResult :=
  let threat_found := patterns_match negative_patterns content
  { passed := !threat_found, threat_increase := if threat_found then 0.3 else 0.0 }

/-- `filter_ego_distortion`: weight 0.4. -/
def filter_ego_distortion (content : String) : FilterResult :=
  let threat_found := patterns_match ego_patterns content
  { passed := !threat_found, threat_increase := if threat_found then 0.4 else 0.0 }

/-- `filter_fear_based_content`: weight 0.2. -/
def filter_fear_based_content (content : String) : FilterResult :=
  let threat_found := patterns_match fear_patterns content
  { passed := !threat_found, threat_increase := if threat_found then 0.2 else 0.0 }

/-- `filter_manipulation_attempts`: weight 0.5. -/
def filter_manipulation_attempts (content : String) : FilterResult :=
  let threat_found := patterns_match manipulation_patterns content
  { passed := !threat_found, threat_increase := if threat_found then 0.5 else 0.0 }

/-- `filter_spiritual_bypassing`: weight 0.15. -/
def filter_spiritual_bypassing (content : String) : FilterResult :=
  let threat_found := patterns_match bypassing_patterns content
  { passed := !threat_found, threat_increase := if threat_found then 0.15 else 0.0 }

/-- `verify_divine_alignment`: the positive filter. It never adds threat, but
it fails whenever fewer than ten percent of the divine keywords occur in the
content. -/
def verify_divine_alignment (content : String) : FilterResult :=
  let divine_matches : ℕ :=
    (divine_patterns.filter (fun p => containsSub (lowerOf p) (lowerOf content))).length
  let alignment_score : ℚ := min ((divine_matches : ℚ) / (divine_patterns.length : ℚ)) 1.0
  { passed := decide (alignment_score ≥ 0.1), threat_increase := 0.0 }

/-- The scan result record (`content`, `source` and the timestamp carry no
logic and are omitted). -/
structure PurityScan where
  is_pure : Bool
  protection_applied : Bool
  purification_needed : Bool
  divine_score : ℚ
  threat_level : ℚ
  deriving DecidableEq, Repr

/-- The filter loop of `scan_divine_input`: each failing filter clears
`is_pure`, sets `purification_needed` and accumulates its threat increase. -/
def apply_filters (acc : PurityScan) : List FilterResult → PurityScan
  | [] => acc
  | r :: rs =>
      let acc :=
        if r.passed then acc
        else { acc with is_pure := false, purification_needed := true,
                        threat_level := acc.threat_level + r.threat_increase }
      apply_filters acc rs

/-- The results of the six divine filters on a content, in the order
`initialize_divine_protection` registers the filters. -/
def divine_filter_results (content : String) : List FilterResult :=
  [filter_negative_intent content,
   filter_ego_distortion content,
   filter_fear_based_content content,
   filter_manipulation_attempts content,
   filter_spiritual_bypassing content,
   verify_divine_alignment content]

/-- `scan_divine_input`: run all six filters over the initial result, then set
`divine_score = max(1.0 - threat_level, 0.0)`. -/
def scan_divine_input (content : String) : PurityScan :=
  let init : PurityScan :=
    { is_pure := true, protection_applied := false, purification_needed := false,
      divine_score := 1.0, threat_level := 0.0 }
  let result := apply_filters init (divine_filter_results content)
  { result with divine_score := max (1.0 - result.threat_level) 0.0 }

/-- `purify_content`: rescan, and wrap the content in the decorative preamble
and postamble only when purification is needed. -/
def purify_content (content : String) : String :=
  let scan_result := scan_divine_input content
  if scan_result.purification_needed then
    "🌟 [Purified by Divine Light] 🌟\n\n" ++ content ++
      "\n\n💖 Blessed with love, light, and divine protection 💖"
  else content

/-- The five negative-filter trigger booleans of a content string, in filter order. -/
def neg_triggers (content : String) : List Bool :=
  [patterns_match negative_patterns content,
   patterns_match ego_patterns content,
   patterns_match fear_patterns content,
   patterns_match manipulation_patterns content,
   patterns_match bypassing_patterns content]

/-- The fixed threat weights of the five negative filters, in filter order. -/
def neg_weights : List ℚ := [0.3, 0.4, 0.2, 0.5, 0.15]

/-- Sum of the weights of exactly the negative filters a content triggers. -/
def triggered_weight_sum (content : String) : ℚ :=
  (((neg_triggers content).zip neg_weights).map (fun p => if p.1 then p.2 else 0)).sum

/-- Number of divine-alignment keywords occurring in a content string. -/
def divineMatchCount (content : String) : ℕ :=
  (divine_patterns.filter (fun p => containsSub (lowerOf p) (lowerOf content))).length

/-- The total threat increase a list of filter results contributes:
each failing filter adds its own increase. -/
def failed_threat (rs : List FilterResult) : ℚ :=
  (rs.map (fun r => if r.passed then 0 else r.threat_increase)).sum

/-! ### Concrete instances used by individual claims -/

/-- A state satisfying the threshold invariant (mean 0.6 buckets to expanding),
used to exhibit a meditation session that breaks the invariant. -/
def before_C1 : ConsciousnessState :=
  { level := .expanding, clarity := 0.6, spiritual_resonance := 0.6,
    divine_connection := 0.6, emotional_balance := 0.6, mental_peace := 0.6 }

/-- A concrete pre-meditation state with all metrics one half. -/
def before_C3 : ConsciousnessState :=
  { level := .awakening, clarity := 0.5, spiritual_resonance := 0.5,
    divine_connection := 0.5, emotional_balance := 0.5, mental_peace := 0.5 }

/-- Membership of a rational in the unit interval. -/
def in_unit (x : ℚ) : Prop := 0 ≤ x ∧ x ≤ 1

/-- The documented input ranges of section 4.1 of the specification, stated on
the defaulted field values: stress and anxiety in [1, 10], frequencies in [0, 1]. -/
def valid_input (u : UserInput) : Prop :=
  1 ≤ u.stress_level.getD 5 ∧ u.stress_level.getD 5 ≤ 10 ∧
  1 ≤ u.anxiety_level.getD 5 ∧ u.anxiety_level.getD 5 ≤ 10 ∧
  in_unit (u.practice_frequency.getD 0) ∧
  in_unit (u.prayer_frequency.getD 0) ∧
  in_unit (u.peace_frequency.getD 0) ∧
  in_unit (u.meditation_frequency.getD 0)

/-- Each jitter draw lies in the range of its `random.uniform` call. -/
def valid_jitter (j : Jitter) : Prop :=
  0.1 ≤ j.clarityJitter ∧ j.clarityJitter ≤ 0.3 ∧
  0.1 ≤ j.resonanceJitter ∧ j.resonanceJitter ≤ 0.25 ∧
  0.15 ≤ j.connectionJitter ∧ j.connectionJitter ≤ 0.35 ∧
  0.1 ≤ j.balanceJitter ∧ j.balanceJitter ≤ 0.2 ∧
  0.1 ≤ j.peaceJitter ∧ j.peaceJitter ≤ 0.25

/-- An assessment input with every field present and the list fields long
enough that the raw clarity formula exceeds 1 before clamping. -/
def input_C6 : UserInput :=
  { clarity_indicators := some ["a", "b", "c", "d", "e", "f", "g", "h", "i", "j", "k", "l"]
    spiritual_practices := some ["a", "b", "c", "d", "e", "f", "g", "h", "i", "j", "k", "l"]
    practice_frequency := some 1
    divine_experiences := some ["a", "b", "c", "d", "e", "f", "g", "h", "i", "j", "k", "l"]
    prayer_frequency := some 1
    stress_level := some 1
    peace_frequency := some 1
    meditation_frequency := some 1
    anxiety_level := some 1 }

/-- The maximal jitter draw of each `random.uniform` range. -/
def jitter_C6 : Jitter :=
  { clarityJitter := 0.3, resonanceJitter := 0.25, connectionJitter := 0.35,
    balanceJitter := 0.2, peaceJitter := 0.25 }

/-- An out-of-range assessment input: stress level 20, every other field absent. -/
def input_C9 : UserInput := { stress_level := some 20 }

/-- A jitter record with every draw at 0.15, inside all five uniform ranges. -/
def jitter_C9 : Jitter :=
  { clarityJitter := 0.15, resonanceJitter := 0.15, connectionJitter := 0.15,
    balanceJitter := 0.15, peaceJitter := 0.15 }

/-! ### Helper lemmas -/

/-- The filter loop leaves `is_pure` set exactly when it started set and every
filter passed. -/
theorem apply_filters_is_pure (rs : List FilterResult) (init : PurityScan) :
    (apply_filters init rs).is_pure = (init.is_pure && rs.all (fun r => r.passed)) := by
  induction rs generalizing init with
  | nil => simp [apply_filters]
  | cons r rs ih =>
      cases hr : r.passed <;> simp [apply_filters, hr, ih]

/-- The filter loop marks purification as needed exactly when it was already
needed or some filter failed. -/
theorem apply_filters_pn (rs : List FilterResult) (init : PurityScan) :
    (apply_filters init rs).purification_needed =
      (init.purification_needed || !(rs.all (fun r => r.passed))) := by
  induction rs generalizing init with
  | nil => simp [apply_filters]
  | cons r rs ih =>
      cases hr : r.passed <;> simp [apply_filters, hr, ih]

/-- The filter loop adds exactly the failing filters' threat increases. -/
theorem apply_filters_threat (rs : List FilterResult) (init : PurityScan) :
    (apply_filters init rs).threat_level = init.threat_level + failed_threat rs := by
  induction rs generalizing init with
  | nil => simp [apply_filters, failed_threat]
  | cons r rs ih =>
      cases hr : r.passed
      · simp [apply_filters, hr, ih, failed_threat]
        ring
      · simp [apply_filters, hr, ih, failed_threat]

/-- The positive filter passes exactly when at least one divine keyword occurs:
the alignment score is `min(matches/10, 1)` and the pass threshold is 0.1. -/
theorem verify_divine_alignment_passed (content : String) :
    (verify_divine_alignment content).passed = decide (1 ≤ divineMatchCount content) := by
  simp only [verify_divine_alignment, divineMatchCount]
  rw [decide_eq_decide]
  have hlen : ((divine_patterns.length : ℕ) : ℚ) = 10 := by norm_num [divine_patterns]
  rw [hlen, ge_iff_le, le_min_iff]
  set m := (divine_patterns.filter (fun p => containsSub (lowerOf p) (lowerOf content))).length
  constructor
  · rintro ⟨h1, _⟩
    have : (1 : ℚ) ≤ (m : ℚ) := by
      norm_num at h1
      linarith
    exact_mod_cast this
  · intro h
    have hq : (1 : ℚ) ≤ (m : ℚ) := by exact_mod_cast h
    constructor
    · norm_num
      linarith
    · norm_num

/-- A scan is pure exactly when no negative filter triggered and the positive
divine-alignment filter passed. -/
theorem scan_is_pure_eq (content : String) :
    (scan_divine_input content).is_pure =
      ((neg_triggers content).all (fun t => !t) && (verify_divine_alignment content).passed) := by
  simp only [scan_divine_input, apply_filters_is_pure, divine_filter_results, neg_triggers,
    filter_negative_intent, filter_ego_distortion, filter_fear_based_content,
    filter_manipulation_attempts, filter_spiritual_bypassing,
    List.all_cons, List.all_nil]
  generalize patterns_match negative_patterns content = a
  generalize patterns_match ego_patterns content = b
  generalize patterns_match fear_patterns content = c
  generalize patterns_match manipulation_patterns content = d
  generalize patterns_match bypassing_patterns content = e
  generalize (verify_divine_alignment content).passed = f
  cases a <;> cases b <;> cases c <;> cases d <;> cases e <;> cases f <;> rfl

/-- The threat level of a scan is the sum of the weights of exactly the
triggered negative filters; the positive filter contributes nothing. -/
theorem scan_threat_eq (content : String) :
    (scan_divine_input content).threat_level = triggered_weight_sum content := by
  simp only [scan_divine_input, apply_filters_threat, failed_threat, divine_filter_results,
    triggered_weight_sum, neg_triggers, neg_weights,
    filter_negative_intent, filter_ego_distortion, filter_fear_based_content,
    filter_manipulation_attempts, filter_spiritual_bypassing, verify_divine_alignment,
    List.zip, List.zipWith, List.map, List.sum_cons, List.sum_nil]
  generalize patterns_match negative_patterns content = a
  generalize patterns_match ego_patterns content = b
  generalize patterns_match fear_patterns content = c
  generalize patterns_match manipulation_patterns content = d
  generalize patterns_match bypassing_patterns content = e
  cases a <;> cases b <;> cases c <;> cases d <;> cases e <;> norm_num

/-- Purification is needed exactly when the scan is not pure. -/
theorem scan_pn_eq (content : String) :
    (scan_divine_input content).purification_needed = !(scan_divine_input content).is_pure := by
  simp only [scan_divine_input, apply_filters_pn, apply_filters_is_pure]
  simp

/-- The evolved level is the old one, or the next one when the promotion guard
held. -/
theorem evolve_level_cases (l : ConsciousnessLevel) (s : ℚ) (dr : Bool) :
    evolve_level l s dr = l ∨
      (evolve_level l s dr = nextLevel l ∧ s > 0.9 ∧ l ≠ ConsciousnessLevel.divineUnity) := by
  unfold evolve_level
  split_ifs with h1 h2
  · exact Or.inr ⟨rfl, h1.1, h1.2⟩
  · exact Or.inl rfl
  · exact Or.inl rfl

/-- Below the top level, the next level sits exactly one index higher. -/
theorem levelIdx_nextLevel (l : ConsciousnessLevel) (h : l ≠ ConsciousnessLevel.divineUnity) :
    levelIdx (nextLevel l) = levelIdx l + 1 := by
  cases l <;> simp_all [nextLevel, levelIdx]

/-- A unit-interval value never decreases under multiplication by a factor of
at least one followed by the upper clamp at one. -/
theorem le_min_one_mul (x f : ℚ) (h0 : 0 ≤ x) (h1 : x ≤ 1) (hf : 1 ≤ f) :
    x ≤ min 1.0 (x * f) := by
  rw [show (1.0 : ℚ) = 1 by norm_num]
  exact le_min h1 (le_mul_of_one_le_right h0 hf)

/-- The duration factor is at least one for every nonnegative duration. -/
theorem one_le_duration_factor (d : ℤ) (hd : 0 ≤ d) :
    (1 : ℚ) ≤ min 1.2 (1 + (d : ℚ) * 0.01) := by
  have hq : (0 : ℚ) ≤ (d : ℚ) := by exact_mod_cast hd
  rw [le_min_iff]
  constructor
  · norm_num
  · nlinarith

/-- The guidance factor is at least one for every guidance count. -/
theorem one_le_guidance_factor (g : ℕ) :
    (1 : ℚ) ≤ min 1.15 (1 + (g : ℚ) * 0.05) := by
  have hq : (0 : ℚ) ≤ (g : ℚ) := Nat.cast_nonneg g
  rw [le_min_iff]
  constructor
  · norm_num
  · nlinarith

/-- A nonnegative value clamped from above at one lies in the unit interval. -/
theorem in_unit_min (x : ℚ) (h : 0 ≤ x) : in_unit (min 1.0 x) := by
  constructor
  · exact le_min (by norm_num) h
  · calc min 1.0 x ≤ 1.0 := min_le_left _ _
      _ = 1 := by norm_num

/-! ### Claim theorems -/

/-- Claim C1, counterexample: the claim quantifies over every state the engine
creates, including the `consciousness_after` of a meditation session. Starting
from a state that itself satisfies the threshold invariant (all metrics 0.6,
level expanding), a 20-minute session yields a mean of 0.684, which buckets to
transcending, while the session keeps the level at expanding (the promotion
guard requires a mean above 0.9). So the post-session level differs from the
bucketing of the mean of its own metrics. -/
theorem spec_C1_counterexample :
    before_C1.level = levelFromScore (state_mean before_C1) ∧
    (meditation_consciousness_after before_C1 20 false).level ≠
      levelFromScore (state_mean (meditation_consciousness_after before_C1 20 false)) := by
  constructor
  · norm_num [before_C1, state_mean, levelFromScore]
  · norm_num [meditation_consciousness_after, evolve_consciousness_post_meditation,
      meditation_guidance_count, evolve_level, before_C1, levelFromScore, state_mean, min_def]
    decide

/-- Claim C1, amended: every state returned by `assess_consciousness_state` has
its level equal to the threshold bucketing of the mean of its five metrics
(boundaries inclusive below); the `consciousness_after` of a meditation session
instead carries the pre-session level forward, promoted by at most one step,
and need not equal the bucketing of its own mean. -/
theorem spec_C1_amended :
    (∀ (u : UserInput) (j : Jitter),
        (assess_consciousness_state u j).level =
          levelFromScore (state_mean (assess_consciousness_state u j)))
    ∧ ∀ (before : ConsciousnessState) (d : ℤ) (draw : Bool),
        (meditation_consciousness_after before d draw).level = before.level ∨
          (meditation_consciousness_after before d draw).level = nextLevel before.level := by
  constructor
  · intro u j
    rfl
  · intro before d draw
    rcases evolve_level_cases before.level
        (state_mean (meditation_consciousness_after before d draw)) draw with h | ⟨h, _, _⟩
    · exact Or.inl h
    · exact Or.inr h

/-- Claim C2, counterexample: the string "hello" triggers none of the five
negative filters, yet its scan is not pure, because the sixth registered
filter — the positive divine-alignment filter — fails on content containing no
divine keyword and thereby clears `is_pure`. -/
theorem spec_C2_counterexample :
    (scan_divine_input "hello").is_pure = false ∧
      (neg_triggers "hello").all (fun t => !t) = true := by
  refine ⟨?_, by decide⟩
  rw [scan_is_pure_eq, verify_divine_alignment_passed]
  decide

/-- Claim C2, amended: for every content string, `is_pure` is true iff no
negative filter triggered AND the positive divine-alignment filter passed
(at least one divine keyword occurs); the positive filter never contributes to
`threat_level`, which is exactly the sum of the triggered negative weights. -/
theorem spec_C2 (content : String) :
    ((scan_divine_input content).is_pure =
      ((neg_triggers content).all (fun t => !t) && (verify_divine_alignment content).passed))
    ∧ (scan_divine_input content).threat_level = triggered_weight_sum content :=
  ⟨scan_is_pure_eq content, scan_threat_eq content⟩

/-- Claim C3: for every pre-session state with all five metrics in the unit
interval and every nonnegative duration, each post-session metric is at least
the corresponding pre-session metric, whatever the promotion draw. -/
theorem spec_C3 (before : ConsciousnessState) (d : ℤ) (draw : Bool)
    (hc : 0 ≤ before.clarity ∧ before.clarity ≤ 1)
    (hs : 0 ≤ before.spiritual_resonance ∧ before.spiritual_resonance ≤ 1)
    (hv : 0 ≤ before.divine_connection ∧ before.divine_connection ≤ 1)
    (he : 0 ≤ before.emotional_balance ∧ before.emotional_balance ≤ 1)
    (hm : 0 ≤ before.mental_peace ∧ before.mental_peace ≤ 1)
    (hdur : 0 ≤ d) :
    before.clarity ≤ (meditation_consciousness_after before d draw).clarity ∧
    before.spiritual_resonance ≤ (meditation_consciousness_after before d draw).spiritual_resonance ∧
    before.divine_connection ≤ (meditation_consciousness_after before d draw).divine_connection ∧
    before.emotional_balance ≤ (meditation_consciousness_after before d draw).emotional_balance ∧
    before.mental_peace ≤ (meditation_consciousness_after before d draw).mental_peace := by
  refine ⟨?_, ?_, ?_, ?_, ?_⟩
  · exact le_min_one_mul _ _ hc.1 hc.2 (one_le_duration_factor d hdur)
  · exact le_min_one_mul _ _ hs.1 hs.2 (one_le_guidance_factor _)
  · exact le_min_one_mul _ _ hv.1 hv.2 (by norm_num)
  · exact le_min_one_mul _ _ he.1 he.2 (by norm_num)
  · exact le_min_one_mul _ _ hm.1 hm.2 (one_le_duration_factor d hdur)

/-- Witness for C3: a 5-minute session from the all-one-half state. -/
theorem spec_C3_witness :
    before_C3.clarity ≤ (meditation_consciousness_after before_C3 5 false).clarity ∧
    before_C3.spiritual_resonance ≤ (meditation_consciousness_after before_C3 5 false).spiritual_resonance ∧
    before_C3.divine_connection ≤ (meditation_consciousness_after before_C3 5 false).divine_connection ∧
    before_C3.emotional_balance ≤ (meditation_consciousness_after before_C3 5 false).emotional_balance ∧
    before_C3.mental_peace ≤ (meditation_consciousness_after before_C3 5 false).mental_peace :=
  spec_C3 before_C3 5 false (by norm_num [before_C3]) (by norm_num [before_C3])
    (by norm_num [before_C3]) (by norm_num [before_C3]) (by norm_num [before_C3])
    (by norm_num)

/-- Claim C4: the post-session level equals the pre-session level, or is
exactly the next level in order — never lower, never more than one step up —
and in the promoted case the mean of the five new metrics exceeds 0.9 and the
pre-session level is not the top level. -/
theorem spec_C4 (before : ConsciousnessState) (d : ℤ) (draw : Bool) :
    (meditation_consciousness_after before d draw).level = before.level ∨
      (levelIdx (meditation_consciousness_after before d draw).level = levelIdx before.level + 1 ∧
        state_mean (meditation_consciousness_after before d draw) > 0.9 ∧
        before.level ≠ ConsciousnessLevel.divineUnity) := by
  have h : (meditation_consciousness_after before d draw).level =
      evolve_level before.level (state_mean (meditation_consciousness_after before d draw)) draw := rfl
  rw [h]
  rcases evolve_level_cases before.level
      (state_mean (meditation_consciousness_after before d draw)) draw with h1 | ⟨h1, h2, h3⟩
  · exact Or.inl h1
  · exact Or.inr ⟨by rw [h1, levelIdx_nextLevel _ h3], h2, h3⟩

/-- Claim C5: the guidance-type classifier agrees with the specification rule
(case-insensitive scan of the keyword groups in priority order, first match
wins), and the two documented examples classify as instructional and
illuminative respectively. -/
theorem spec_C5 :
    (∀ q : String, determine_guidance_type q = guidance_type_spec q) ∧
      determine_guidance_type "How should I proceed?" = GuidanceType.instructional ∧
      determine_guidance_type "Why do I suffer?" = GuidanceType.illuminative :=
  ⟨fun _ => rfl, by decide, by decide⟩

/-- Claim C6: for every assessment input within the documented ranges and
every jitter draw within its uniform range, each of the five emitted metrics
lies in the unit interval. -/
theorem spec_C6 (u : UserInput) (j : Jitter) (hu : valid_input u) (hj : valid_jitter j) :
    in_unit (assess_consciousness_state u j).clarity ∧
    in_unit (assess_consciousness_state u j).spiritual_resonance ∧
    in_unit (assess_consciousness_state u j).divine_connection ∧
    in_unit (assess_consciousness_state u j).emotional_balance ∧
    in_unit (assess_consciousness_state u j).mental_peace := by
  obtain ⟨hs1, hs2, ha1, ha2, hpf, hpr, hpe, hmf⟩ := hu
  obtain ⟨hj1, hj1b, hj2, hj2b, hj3, hj3b, hj4, hj4b, hj5, hj5b⟩ := hj
  refine ⟨?_, ?_, ?_, ?_, ?_⟩
  · have e : (assess_consciousness_state u j).clarity =
        min 1.0 (((u.clarity_indicators.getD []).length : ℚ) / 10 + j.clarityJitter) := rfl
    rw [e]
    refine in_unit_min _ ?_
    have hlen : (0 : ℚ) ≤ ((u.clarity_indicators.getD []).length : ℚ) / 10 := by positivity
    linarith
  · have e : (assess_consciousness_state u j).spiritual_resonance =
        min 1.0 ((((u.spiritual_practices.getD []).length : ℚ) * 0.2 +
          u.practice_frequency.getD 0 * 0.1) / 2 + j.resonanceJitter) := rfl
    rw [e]
    refine in_unit_min _ ?_
    have h1 : (0 : ℚ) ≤ ((u.spiritual_practices.getD []).length : ℚ) * 0.2 := by positivity
    have h2 : (0 : ℚ) ≤ u.practice_frequency.getD 0 * 0.1 := mul_nonneg hpf.1 (by norm_num)
    linarith
  · have e : (assess_consciousness_state u j).divine_connection =
        min 1.0 ((((u.divine_experiences.getD []).length : ℚ) * 0.25 +
          u.prayer_frequency.getD 0 * 0.15) / 2 + j.connectionJitter) := rfl
    rw [e]
    refine in_unit_min _ ?_
    have h1 : (0 : ℚ) ≤ ((u.divine_experiences.getD []).length : ℚ) * 0.25 := by positivity
    have h2 : (0 : ℚ) ≤ u.prayer_frequency.getD 0 * 0.15 := mul_nonneg hpr.1 (by norm_num)
    linarith
  · have e : (assess_consciousness_state u j).emotional_balance =
        min 1.0 ((1 - u.stress_level.getD 5 / 10) * 0.5 +
          u.peace_frequency.getD 0 * 0.1 + j.balanceJitter) := rfl
    rw [e]
    refine in_unit_min _ ?_
    have h1 : (0 : ℚ) ≤ 1 - u.stress_level.getD 5 / 10 := by linarith
    have h2 : (0 : ℚ) ≤ (1 - u.stress_level.getD 5 / 10) * 0.5 := mul_nonneg h1 (by norm_num)
    have h3 : (0 : ℚ) ≤ u.peace_frequency.getD 0 * 0.1 := mul_nonneg hpe.1 (by norm_num)
    linarith
  · have e : (assess_consciousness_state u j).mental_peace =
        min 1.0 (u.meditation_frequency.getD 0 * 0.2 +
          (1 - u.anxiety_level.getD 5 / 10) * 0.3 + j.peaceJitter) := rfl
    rw [e]
    refine in_unit_min _ ?_
    have h1 : (0 : ℚ) ≤ u.meditation_frequency.getD 0 * 0.2 := mul_nonneg hmf.1 (by norm_num)
    have h2 : (0 : ℚ) ≤ 1 - u.anxiety_level.getD 5 / 10 := by linarith
    have h3 : (0 : ℚ) ≤ (1 - u.anxiety_level.getD 5 / 10) * 0.3 := mul_nonneg h2 (by norm_num)
    linarith

/-- Witness for C6: a maximal in-range input whose raw clarity value 1.5
exceeds 1 before clamping, and all five emitted metrics stay in the unit
interval. -/
theorem spec_C6_witness :
    1 < ((input_C6.clarity_indicators.getD []).length : ℚ) / 10 + jitter_C6.clarityJitter ∧
    (in_unit (assess_consciousness_state input_C6 jitter_C6).clarity ∧
     in_unit (assess_consciousness_state input_C6 jitter_C6).spiritual_resonance ∧
     in_unit (assess_consciousness_state input_C6 jitter_C6).divine_connection ∧
     in_unit (assess_consciousness_state input_C6 jitter_C6).emotional_balance ∧
     in_unit (assess_consciousness_state input_C6 jitter_C6).mental_peace) :=
  ⟨by norm_num [input_C6, jitter_C6],
   spec_C6 input_C6 jitter_C6
     (by norm_num [valid_input, in_unit, input_C6])
     (by norm_num [valid_jitter, jitter_C6])⟩

/-- Claim C7: a content string triggering exactly two of the five negative
filters scans to a threat level equal to the sum of the triggered weights, and
is not pure. -/
theorem spec_C7 (content : String) (h : (neg_triggers content).count true = 2) :
    (scan_divine_input content).threat_level = triggered_weight_sum content ∧
      (scan_divine_input content).is_pure = false := by
  refine ⟨scan_threat_eq content, ?_⟩
  cases hall : (neg_triggers content).all (fun t => !t) with
  | false => rw [scan_is_pure_eq, hall, Bool.false_and]
  | true =>
      exfalso
      have hzero : (neg_triggers content).count true = 0 := by
        refine List.count_eq_zero.mpr ?_
        intro hmem
        have := List.all_eq_true.mp hall true hmem
        simp at this
      rw [h] at hzero
      simp at hzero

/-- Witness for C7: "harm brings doom" triggers exactly the negative-intent
filter (weight 0.3) and the fear-based filter (weight 0.2), so the threat
level is 0.5. -/
theorem spec_C7_witness :
    (scan_divine_input "harm brings doom").threat_level = 0.3 + 0.2 ∧
      (scan_divine_input "harm brings doom").is_pure = false := by
  have h := spec_C7 "harm brings doom" (by decide)
  refine ⟨?_, h.2⟩
  have t1 : patterns_match negative_patterns "harm brings doom" = true := by decide
  have t2 : patterns_match ego_patterns "harm brings doom" = false := by decide
  have t3 : patterns_match fear_patterns "harm brings doom" = true := by decide
  have t4 : patterns_match manipulation_patterns "harm brings doom" = false := by decide
  have t5 : patterns_match bypassing_patterns "harm brings doom" = false := by decide
  rw [h.1]
  simp [triggered_weight_sum, neg_triggers, neg_weights, t1, t2, t3, t4, t5]

/-- Claim C8: whenever a scan reports the content pure, purification returns
the content unchanged, with no preamble or postamble. -/
theorem spec_C8 (content : String) (h : (scan_divine_input content).is_pure = true) :
    purify_content content = content := by
  have hpn : (scan_divine_input content).purification_needed = false := by
    rw [scan_pn_eq, h]
    rfl
  simp [purify_content, hpn]

/-- Witness for C8: "love and peace" scans pure and purification leaves it
unchanged. -/
theorem spec_C8_witness : purify_content "love and peace" = "love and peace" :=
  spec_C8 "love and peace" (by
    rw [scan_is_pure_eq, verify_divine_alignment_passed]
    decide)

/-- Claim C9: the metric formulas clamp only from above, so the out-of-range
input with stress level 20 and every other field absent yields a strictly
negative emotional balance for every jitter draw in its uniform range. -/
theorem spec_C9 (j : Jitter) (_h0 : 0.1 ≤ j.balanceJitter) (h1 : j.balanceJitter ≤ 0.2) :
    (assess_consciousness_state input_C9 j).emotional_balance < 0 := by
  have e : (assess_consciousness_state input_C9 j).emotional_balance =
      min 1.0 ((1 - (20 : ℚ) / 10) * 0.5 + (0 : ℚ) * 0.1 + j.balanceJitter) := rfl
  rw [e]
  have harg : (1 - (20 : ℚ) / 10) * 0.5 + (0 : ℚ) * 0.1 + j.balanceJitter ≤ -0.3 := by linarith
  exact lt_of_le_of_lt (le_trans (min_le_right _ _) harg) (by norm_num)

/-- Witness for C9: at jitter 0.15 the emotional balance is negative. -/
theorem spec_C9_witness : (assess_consciousness_state input_C9 jitter_C9).emotional_balance < 0 :=
  spec_C9 jitter_C9 (by norm_num [jitter_C9]) (by norm_num [jitter_C9])

/-- Claim C10: keyword matching has no word boundaries: the question
"Please show me mercy" contains no priority keyword as a standalone word, yet
classifies as instructional because "how" occurs inside "show". -/
theorem spec_C10 :
    determine_guidance_type "Please show me mercy" = GuidanceType.instructional ∧
      containsSub "how".toList (lowerOf "Please show me mercy") = true ∧
      (["how", "what", "when", "should", "would", "might", "why", "meaning",
        "purpose", "help", "heal", "support"].all
          (fun k => !(["please", "show", "me", "mercy"].contains k))) = true ∧
      String.intercalate " " ["please", "show", "me", "mercy"] = "please show me mercy" := by
  decide

end Sophia
